import Mathlib

/-!
Shallow embedding of the `remule` repository's packet codec
(`src/emule-proto/src/udp_proto.rs`), the `nodes.dat` bootstrap parser
(`src/src/nodes.rs`), the timestamp conversion and the SQLite-backed peer
store (`src/collect-peers/src/main.rs`), together with theorems settling
the frozen claims about the natural-language specification.

Byte buffers are `List Nat` (each element one byte).  Rust functions that
can return, fail with a typed error, or panic are embedded as values of
`RRes ε α`: `ok` mirrors `Ok`, `err` mirrors `Err`, and `panic` absorbs
every Rust panic (`panic!`, `todo!`, a failing `unwrap`, an out-of-range
slice index).
-/

namespace Remule

/-- Outcome of running a piece of Rust code: normal return, typed error,
or panic. -/
inductive RRes (ε α : Type) where
  | ok (v : α)
  | err (e : ε)
  | panic
deriving DecidableEq, Repr

def RRes.bind : RRes ε α → (α → RRes ε β) → RRes ε β
  | .ok v, f => f v
  | .err e, _ => .err e
  | .panic, _ => .panic

instance : Monad (RRes ε) where
  pure := .ok
  bind := RRes.bind

/-- `Option::unwrap` / a slice conversion that must succeed: `none`
becomes a panic. -/
def RRes.unwrapO : Option α → RRes ε α
  | some v => .ok v
  | none => .panic

/-- `Result::unwrap`: an error (or nested panic) becomes a panic. -/
def RRes.unwrapR : RRes ε α → RRes ε' α
  | .ok v => .ok v
  | .err _ => .panic
  | .panic => .panic

/-- Rust `&l[..n]`: panics (here: `none`) when `n` exceeds the length. -/
def sliceTo (l : List Nat) (n : Nat) : Option (List Nat) :=
  if n ≤ l.length then some (l.take n) else none

/-- Rust `&l[n..]`: panics when `n` exceeds the length. -/
def sliceFrom (l : List Nat) (n : Nat) : Option (List Nat) :=
  if n ≤ l.length then some (l.drop n) else none

/-- Rust `&l[i..j]`: panics when the range is out of bounds. -/
def sliceRange (l : List Nat) (i j : Nat) : Option (List Nat) :=
  if i ≤ j ∧ j ≤ l.length then some ((l.drop i).take (j - i)) else none

/-- Rust `<&[u8] as TryInto<[u8; n]>>::try_into`: succeeds exactly when
the slice has length `n`. -/
def tryIntoLen (n : Nat) (l : List Nat) : Option (List Nat) :=
  if l.length = n then some l else none

/-- Rust `uN::from_le_bytes`: little-endian recombination of a byte
list. -/
def leBytes (l : List Nat) : Nat :=
  l.foldr (fun b acc => b + 256 * acc) 0

/-- `l.split_at n`: panics when `n` exceeds the length. -/
def splitAtChecked (l : List Nat) (n : Nat) : Option (List Nat × List Nat) :=
  if n ≤ l.length then some (l.take n, l.drop n) else none

/-! ## `udp_proto.rs`: error type and enums -/

/-- `udp_proto::Error`; numeric fields follow the declaration order of
each Rust variant. -/
inductive Err where
  | TagSizeMismatchContent (need hav : Nat)
  | BootstrapRespContactsSizeMismatch (need hav : Nat)
  | TagSizeMismatchForString (need hav : Nat)
  | TagInvalid (value : Nat)
  | TagSizeMismatchName (hav need nameLen : Nat)
  | TagSizeMismatch (hav need : Nat)
  | TagListTooShort (hav need : Nat)
  | ResContactSizeMismatch (hav need : Nat)
  | ResSizeMismatch (hav need : Nat)
  | ReqSizeMismatch (hav need : Nat)
  | UnhandledUdpProto
  | PacketTooShort
  | UnrecognizedUdpProto
  | KadPacketTooShort
  | BootstrapRespTooShort (hav need : Nat)
deriving DecidableEq, Repr

/-- `udp_proto::UdpProto` discriminants. -/
inductive UdpProto where
  | Emule
  | KademliaPacked
  | KademliaHeader
  | UdpReserved1
  | UdpReserved2
  | Packed
deriving DecidableEq, Repr

def UdpProto.toU8 : UdpProto → Nat
  | .Emule => 0xC5
  | .KademliaPacked => 0xE5
  | .KademliaHeader => 0xE4
  | .UdpReserved1 => 0xA3
  | .UdpReserved2 => 0xB2
  | .Packed => 0xD4

def UdpProto.fromU8 (b : Nat) : Option UdpProto :=
  if b = 0xC5 then some .Emule
  else if b = 0xE5 then some .KademliaPacked
  else if b = 0xE4 then some .KademliaHeader
  else if b = 0xA3 then some .UdpReserved1
  else if b = 0xB2 then some .UdpReserved2
  else if b = 0xD4 then some .Packed
  else none

/-- `udp_proto::KadOpCode` discriminants. -/
inductive KadOpCode where
  | BootstrapReqV0 | BootstrapReq | BootstrapResV0 | BootstrapResp
  | HelloReqV0 | HelloReq | HelloResV0 | HelloRes
  | ReqV0 | Req | HelloResAck | ResV0 | Res
  | SearchReqV1 | SearchNotesReqV1 | SearchKeyReq | SearchSourceReq | SearchNotesReq
  | SearchResV1 | SearchNotesResV1 | SearchRes
  | PublishReqV1 | PublishNotesReqV0 | PublishKeyReq | PublishSourceReq | PublishNotesReq
  | PublishResV1 | PublishNotesResV0 | PublishRes | PublishResAck
  | FirewalledReqV1 | FindBuddyReqV1 | CallbackReqV1 | Firewalled2ReqV1
  | FirewalledResV1 | FirewalledAckResV1 | FindBuddyResV1
  | Ping | Pong | FirewallUdp
deriving DecidableEq, Repr

def KadOpCode.toU8 : KadOpCode → Nat
  | .BootstrapReqV0 => 0x00
  | .BootstrapReq => 0x01
  | .BootstrapResV0 => 0x08
  | .BootstrapResp => 0x09
  | .HelloReqV0 => 0x10
  | .HelloReq => 0x11
  | .HelloResV0 => 0x18
  | .HelloRes => 0x19
  | .ReqV0 => 0x20
  | .Req => 0x21
  | .HelloResAck => 0x22
  | .ResV0 => 0x28
  | .Res => 0x29
  | .SearchReqV1 => 0x30
  | .SearchNotesReqV1 => 0x32
  | .SearchKeyReq => 0x33
  | .SearchSourceReq => 0x34
  | .SearchNotesReq => 0x35
  | .SearchResV1 => 0x38
  | .SearchNotesResV1 => 0x3A
  | .SearchRes => 0x3b
  | .PublishReqV1 => 0x40
  | .PublishNotesReqV0 => 0x42
  | .PublishKeyReq => 0x43
  | .PublishSourceReq => 0x44
  | .PublishNotesReq => 0x45
  | .PublishResV1 => 0x48
  | .PublishNotesResV0 => 0x4A
  | .PublishRes => 0x4B
  | .PublishResAck => 0x4C
  | .FirewalledReqV1 => 0x50
  | .FindBuddyReqV1 => 0x51
  | .CallbackReqV1 => 0x52
  | .Firewalled2ReqV1 => 0x53
  | .FirewalledResV1 => 0x58
  | .FirewalledAckResV1 => 0x59
  | .FindBuddyResV1 => 0x5A
  | .Ping => 0x60
  | .Pong => 0x61
  | .FirewallUdp => 0x62

/-- `KadOpCode::from_u8` (derived by `Primitive`): inverse of the
discriminant table. -/
def KadOpCode.fromU8 (b : Nat) : Option KadOpCode :=
  if b = 0x00 then some .BootstrapReqV0
  else if b = 0x01 then some .BootstrapReq
  else if b = 0x08 then some .BootstrapResV0
  else if b = 0x09 then some .BootstrapResp
  else if b = 0x10 then some .HelloReqV0
  else if b = 0x11 then some .HelloReq
  else if b = 0x18 then some .HelloResV0
  else if b = 0x19 then some .HelloRes
  else if b = 0x20 then some .ReqV0
  else if b = 0x21 then some .Req
  else if b = 0x22 then some .HelloResAck
  else if b = 0x28 then some .ResV0
  else if b = 0x29 then some .Res
  else if b = 0x30 then some .SearchReqV1
  else if b = 0x32 then some .SearchNotesReqV1
  else if b = 0x33 then some .SearchKeyReq
  else if b = 0x34 then some .SearchSourceReq
  else if b = 0x35 then some .SearchNotesReq
  else if b = 0x38 then some .SearchResV1
  else if b = 0x3A then some .SearchNotesResV1
  else if b = 0x3b then some .SearchRes
  else if b = 0x40 then some .PublishReqV1
  else if b = 0x42 then some .PublishNotesReqV0
  else if b = 0x43 then some .PublishKeyReq
  else if b = 0x44 then some .PublishSourceReq
  else if b = 0x45 then some .PublishNotesReq
  else if b = 0x48 then some .PublishResV1
  else if b = 0x4A then some .PublishNotesResV0
  else if b = 0x4B then some .PublishRes
  else if b = 0x4C then some .PublishResAck
  else if b = 0x50 then some .FirewalledReqV1
  else if b = 0x51 then some .FindBuddyReqV1
  else if b = 0x52 then some .CallbackReqV1
  else if b = 0x53 then some .Firewalled2ReqV1
  else if b = 0x58 then some .FirewalledResV1
  else if b = 0x59 then some .FirewalledAckResV1
  else if b = 0x5A then some .FindBuddyResV1
  else if b = 0x60 then some .Ping
  else if b = 0x61 then some .Pong
  else if b = 0x62 then some .FirewallUdp
  else none

/-- `udp_proto::TagType` discriminants. -/
inductive TagType where
  | Hash
  | String_
  | Uint32
  | Float32
  | Bool_
  | BoolArray
  | Blob
  | Uint16
  | Uint8
  | Bsob
  | Uint64
deriving DecidableEq, Repr

def TagType.fromU8 (b : Nat) : Option TagType :=
  if b = 0x01 then some .Hash
  else if b = 0x02 then some .String_
  else if b = 0x03 then some .Uint32
  else if b = 0x04 then some .Float32
  else if b = 0x05 then some .Bool_
  else if b = 0x06 then some .BoolArray
  else if b = 0x07 then some .Blob
  else if b = 0x08 then some .Uint16
  else if b = 0x09 then some .Uint8
  else if b = 0x0A then some .Bsob
  else if b = 0x0B then some .Uint64
  else none

/-! ## `Tag` and `TagList` -/

/-- `Tag::from_slice`.  Follows the source statement by statement,
including the string branch that slices six bytes at `value_offs` and
converts them with `try_into::<[u8; 2]>().unwrap()`, and the `todo!()`
arms for `Bsob` / `Bool` / `BoolArray` / `Blob`. -/
def Tag.fromSlice (raw : List Nat) : RRes Err (List Nat × List Nat) :=
  let needSize0 := 1 + 2
  if raw.length < needSize0 then .err (.TagSizeMismatch raw.length needSize0) else
  (do
    let nameLenB ← RRes.unwrapO ((sliceRange raw 1 3).bind (tryIntoLen 2))
    let nameLen := leBytes nameLenB
    let needSize1 := needSize0 + nameLen
    if raw.length < needSize1 then
      (.err (.TagSizeMismatchName raw.length needSize1 nameLen) : RRes Err _)
    else do
      let tagTypeByte ← RRes.unwrapO (raw.get? 0)
      match TagType.fromU8 tagTypeByte with
      | none => .err (.TagInvalid tagTypeByte)
      | some tagType => do
        let valueOffs := 3 + nameLen
        let contentBytes : RRes Err Nat :=
          match tagType with
          | .Hash => pure 16
          | .String_ =>
            let needSize2 := needSize1 + 2
            if raw.length < needSize2 then
              .err (.TagSizeMismatchForString needSize2 raw.length)
            else do
              let sLenB ← RRes.unwrapO
                ((sliceRange raw valueOffs (valueOffs + 6)).bind (tryIntoLen 2))
              pure (2 + leBytes sLenB)
          | .Uint64 => pure 8
          | .Uint32 => pure 4
          | .Uint16 => pure 2
          | .Uint8 => pure 1
          | .Float32 => pure 4
          | .Bsob => .panic
          | _ => .panic
        do
          let cb ← contentBytes
          let needSize2 := needSize1 + cb
          if raw.length < needSize2 then
            (.err (.TagSizeMismatchContent needSize2 raw.length) : RRes Err _)
          else do
            let pr ← RRes.unwrapO (splitAtChecked raw needSize2)
            pure pr)

/-- `TagList::count`: `u16::from_le_bytes(self.raw[..4].try_into().unwrap())`. -/
def TagList.count (raw : List Nat) : RRes Err Nat := do
  let b ← RRes.unwrapO ((sliceRange raw 0 4).bind (tryIntoLen 2))
  pure (leBytes b)

/-- The `loop` in `TagList::from_slice`: parse `ct` tags, returning the
unconsumed remainder. -/
def tagListLoop : Nat → List Nat → RRes Err (List Nat)
  | 0, rem => .ok rem
  | n + 1, rem =>
    match Tag.fromSlice rem with
    | .ok (_, rr) => tagListLoop n rr
    | .err e => .err e
    | .panic => .panic

/-- `TagList::from_slice`. -/
def TagList.fromSlice (raw : List Nat) : RRes Err (List Nat × List Nat) :=
  if raw.length < 4 then .err (.TagListTooShort raw.length 4) else do
    let ct ← TagList.count raw
    let itemBytes ← RRes.unwrapO (sliceFrom raw 4)
    let rem ← tagListLoop ct itemBytes
    pure (raw.take (raw.length - rem.length), rem)

/-! ## `BootstrapResp` -/

/-- `BootstrapResp::from_slice`: header is
`client_id(16) | client_port(2) | client_version(1) | num_contacts(2)`. -/
def BootstrapResp.fromSlice (raw : List Nat) : RRes Err (List Nat) :=
  let need := 16 + 2 + 1 + 2
  if raw.length < need then .err (.BootstrapRespTooShort raw.length need)
  else .ok raw

/-- `BootstrapResp::num_contacts`:
`u16::from_le_bytes(self.raw[19..21].try_into().unwrap())`. -/
def BootstrapResp.numContacts (raw : List Nat) : RRes Err Nat := do
  let b ← RRes.unwrapO ((sliceRange raw (16 + 2 + 1) (16 + 2 + 1 + 2)).bind (tryIntoLen 2))
  pure (leBytes b)

/-- `BootstrapRespContacts::from_slice`: only validates
`|raw| == 25 * num`. -/
def BootstrapRespContacts.fromSlice (num : Nat) (raw : List Nat) : RRes Err (List Nat) :=
  let eachSize := 16 + 4 + 2 + 2 + 1
  let needSize := eachSize * num
  if raw.length ≠ needSize then
    .err (.BootstrapRespContactsSizeMismatch needSize raw.length)
  else .ok raw

/-- `BootstrapResp::contacts`. -/
def BootstrapResp.contacts (raw : List Nat) : RRes Err (List Nat) := do
  let n ← BootstrapResp.numContacts raw
  let rest ← RRes.unwrapO (sliceFrom raw (16 + 2 + 1 + 2))
  BootstrapRespContacts.fromSlice n rest

/-- `BootstrapRespContact::from_slice`: `panic!` when fewer than 25
bytes remain, otherwise split off one 25-byte contact. -/
def BootstrapRespContact.fromSlice (raw : List Nat) : RRes Err (List Nat × List Nat) :=
  let n := 16 + 4 + 2 + 2 + 1
  if raw.length < n then .panic
  else .ok (raw.take n, raw.drop n)

/-- Driving the `BootstrapRespContacts` iterator to exhaustion: `next`
returns `None` on an empty remainder, otherwise yields one 25-byte
contact (panicking, like the source, on a short non-empty remainder). -/
def brcDrain (raw : List Nat) : RRes Err (List (List Nat)) :=
  if raw.length = 0 then .ok []
  else if _h : raw.length < 25 then .panic
  else
    match brcDrain (raw.drop 25) with
    | .ok rest => .ok (raw.take 25 :: rest)
    | .err e => .err e
    | .panic => .panic
termination_by raw.length
decreasing_by simp; omega

/-- The expected chunking of a contact block into `n` 25-byte records,
in wire order. -/
def chunks25 : Nat → List Nat → List (List Nat)
  | 0, _ => []
  | n + 1, raw => raw.take 25 :: chunks25 n (raw.drop 25)

/-! ## `Req` -/

/-- `Req::from_slice`: exact 33-byte match. -/
def Req.fromSlice (raw : List Nat) : RRes Err (List Nat) :=
  let need := 1 + 16 + 16
  if raw.length ≠ need then .err (.ReqSizeMismatch raw.length need)
  else .ok raw

/-- `Req::type_`: reads `self.raw[1]`. -/
def Req.type_ (raw : List Nat) : RRes Err Nat :=
  RRes.unwrapO (raw.get? 1)

/-- `Req::target`: `u128::from_le_bytes(self.raw[1..17].try_into().unwrap())`. -/
def Req.target (raw : List Nat) : RRes Err Nat := do
  let b ← RRes.unwrapO ((sliceRange raw 1 17).bind (tryIntoLen 16))
  pure (leBytes b)

/-- `Req::check`: `u128::from_le_bytes(self.raw[17..33].try_into().unwrap())`. -/
def Req.check (raw : List Nat) : RRes Err Nat := do
  let b ← RRes.unwrapO ((sliceRange raw 17 (17 + 16)).bind (tryIntoLen 16))
  pure (leBytes b)

/-! ## `Res` -/

/-- `ResContact::from_slice`: split off one 25-byte contact, error when
fewer than 25 bytes remain. -/
def ResContact.fromSlice (raw : List Nat) : RRes Err (List Nat × List Nat) :=
  let need := 16 + 4 + 2 + 2 + 1
  if raw.length < need then .err (.ResContactSizeMismatch raw.length need)
  else .ok (raw.take need, raw.drop need)

/-- `Res::num_contacts`: `self.raw[16]`. -/
def Res.numContacts (raw : List Nat) : RRes Err Nat :=
  RRes.unwrapO (raw.get? 16)

/-- The validation `for` loop in `Res::from_slice` (note: the source
walks from the start of `raw`, not from the contact block). -/
def resValidate : Nat → List Nat → RRes Err Unit
  | 0, _ => .ok ()
  | n + 1, r =>
    match ResContact.fromSlice r with
    | .ok (_, rr) => resValidate n rr
    | .err e => .err e
    | .panic => .panic

/-- `Res::from_slice`: rejects any length other than `16 + 1`, then runs
the contact-validation loop over `raw`. -/
def Res.fromSlice (raw : List Nat) : RRes Err (List Nat) :=
  let need := 16 + 1
  if raw.length ≠ need then .err (.ResSizeMismatch raw.length need)
  else do
    let n ← Res.numContacts raw
    let _ ← resValidate n raw
    pure raw

/-! ## `SearchRes` -/

/-- `SearchRes::from_slice`: `Ok(SearchRes { raw })`, no validation. -/
def SearchRes.fromSlice (raw : List Nat) : RRes Err (List Nat) :=
  .ok raw

/-- `SearchRes::result_ct`:
`u16::from_le_bytes(self.raw[32..34].try_into().unwrap())`. -/
def SearchRes.resultCt (raw : List Nat) : RRes Err Nat := do
  let b ← RRes.unwrapO ((sliceRange raw (16 + 16) (16 + 16 + 2)).bind (tryIntoLen 2))
  pure (leBytes b)

/-! ## `KadPacket` and `Packet` -/

/-- The two operations `KadPacket::operation` fully decodes; the payload
view is kept as raw bytes. -/
inductive Operation where
  | bootstrapResp (raw : List Nat)
  | req (raw : List Nat)
deriving DecidableEq, Repr

/-- `KadPacket::from_cow`. -/
def KadPacket.fromCow (raw : List Nat) : RRes Err (List Nat) :=
  if raw.length < 1 then .err .KadPacketTooShort
  else .ok raw

/-- `KadPacket::opcode`: `KadOpCode::from_u8(self.raw[0])`. -/
def KadPacket.opcode (raw : List Nat) : RRes Err (Option KadOpCode) := do
  let b ← RRes.unwrapO (raw.get? 0)
  pure (KadOpCode.fromU8 b)

/-- `KadPacket::operation`: dispatches on the opcode and calls
`.unwrap()` on the two sub-parsers (a parse error panics). -/
def KadPacket.operation (raw : List Nat) : RRes Err (Option Operation) := do
  let op ← KadPacket.opcode raw
  match op with
  | some .BootstrapResp => do
    let r ← RRes.unwrapO (sliceFrom raw 1)
    let v ← RRes.unwrapR (BootstrapResp.fromSlice r)
    pure (some (.bootstrapResp v))
  | some .Req => do
    let r ← RRes.unwrapO (sliceFrom raw 1)
    let v ← RRes.unwrapR (Req.fromSlice r)
    pure (some (.req v))
  | _ => pure none

/-- `Packet::from_slice`. -/
def Packet.fromSlice (raw : List Nat) : RRes Err (List Nat) :=
  if raw.length < 1 then .err .PacketTooShort
  else .ok raw

/-! ## `OperationBuf` -/

/-- `udp_proto::OperationBuf` (payload fields irrelevant to encoding are
kept abstract). -/
inductive OperationBuf where
  | BootstrapReq
  | Pong (recvPort : Nat)
  | HelloRes
  | PublishSourceReq (targetId contactId : Nat)
  | FindBuddyReqV1 (buddyId srcClientHash srcClientPort : Nat)
deriving DecidableEq, Repr

/-- `OperationBuf::write_to`: the writer is the list of bytes written so
far; `BootstrapReq` appends `[UdpProto::KademliaHeader as u8,
KadOpCode::BootstrapReq as u8]`, every other variant is `todo!()`. -/
def OperationBuf.writeTo : OperationBuf → List Nat → RRes Err (List Nat)
  | .BootstrapReq, w => .ok (w ++ [UdpProto.toU8 .KademliaHeader, KadOpCode.toU8 .BootstrapReq])
  | _, _ => .panic

end Remule

/-! ## `nodes.rs`: the bootstrap parser -/

namespace RemuleNodes

open Remule

/-- The string-typed errors of `nodes::parse_bootstrap`
(`Box<dyn Error>` built with `format!`). -/
inductive NodesErr where
  | noCount (hav : Nat)
  | notEnoughData (need count hav : Nat)
deriving DecidableEq, Repr

/-- One parsed `nodes::Contact` as produced by `parse_bootstrap`
(fields the bootstrap path never sets are omitted). -/
structure PBContact where
  uid : Nat
  ip : Nat
  udpPort : Nat
  tcpPort : Nat
  contactVersion : Nat
deriving DecidableEq, Repr

/-- The per-contact body of the `for` loop in `parse_bootstrap`,
statement by statement: `u128::from_le_bytes(rem[..8].try_into().unwrap())`
followed by the prefix-style cursor updates `rem = &rem[..N]`. -/
def pbLoop : Nat → List Nat → RRes NodesErr (List PBContact)
  | 0, _ => .ok []
  | n + 1, rem0 => do
    let uidB ← RRes.unwrapO ((sliceTo rem0 8).bind (tryIntoLen 16))
    let uid := leBytes uidB
    let rem1 ← RRes.unwrapO (sliceTo rem0 8)
    let ipB ← RRes.unwrapO ((sliceTo rem1 4).bind (tryIntoLen 4))
    let ip := leBytes ipB
    let rem2 ← RRes.unwrapO (sliceTo rem1 4)
    let upB ← RRes.unwrapO ((sliceTo rem2 2).bind (tryIntoLen 2))
    let udpPort := leBytes upB
    let rem3 ← RRes.unwrapO (sliceTo rem2 2)
    let tpB ← RRes.unwrapO ((sliceTo rem3 2).bind (tryIntoLen 2))
    let tcpPort := leBytes tpB
    let rem4 ← RRes.unwrapO (sliceTo rem3 2)
    let cv ← RRes.unwrapO (rem4.get? 0)
    let rem5 ← RRes.unwrapO (sliceTo rem4 1)
    let rest ← pbLoop n rem5
    pure (⟨uid, ip, udpPort, tcpPort, cv⟩ :: rest)

/-- `nodes::parse_bootstrap`. -/
def parse_bootstrap (inp : List Nat) : RRes NodesErr (List PBContact) :=
  if inp.length < 4 then .err (.noCount inp.length)
  else
    let count := leBytes (inp.take 4)
    let rem := inp.drop 4
    let n := count * 25
    if n ≠ rem.length then .err (.notEnoughData n count rem.length)
    else pbLoop count rem

end RemuleNodes

/-! ## `collect-peers/src/main.rs`: timestamps and the peer store -/

namespace RemuleCollect

open Remule

/-- A `SystemTime` at or after the Unix epoch, as nanoseconds since the
epoch (`Duration` has nanosecond precision). -/
abbrev TimeNanos := Nat

/-- `UnixMillis::as_unix_millis for SystemTime`:
`duration_since(UNIX_EPOCH).as_millis()` (truncating division). -/
def as_unix_millis (t : TimeNanos) : Nat :=
  t / 1000000

/-- `UnixMillis::from_unix_millis for SystemTime`:
`UNIX_EPOCH + Duration::from_micros(ts)` — the source interprets the
stored milliseconds as microseconds. -/
def from_unix_millis (ts : Nat) : TimeNanos :=
  ts * 1000

/-- A row of the `peer` table (`id`, `kad_id`, `ip`, `udp_port`,
`last_send_time`); `kad_id`/`ip` are stored as text rendered from
`u128`/`IpAddr`, both renderings injective, so they are modelled by the
underlying numbers. -/
structure PeerRow where
  rid : Nat
  kadId : Nat
  ip : Nat
  udpPort : Nat
  lastSendTime : Option Nat
deriving DecidableEq, Repr

/-- A row of the `report` table. -/
structure ReportRow where
  rid : Nat
  sourcePeer : Nat
  recvTime : Nat
deriving DecidableEq, Repr

/-- A row of the `report_contact` table. -/
structure ReportContactRow where
  rid : Nat
  reportId : Nat
  reportedPeerId : Nat
  tcpPort : Option Nat
  contactVersion : Option Nat
  verified : Option Nat
deriving DecidableEq, Repr

/-- The relational state owned by `Store` (v3 schema), with rowid
counters. -/
structure Store where
  peer : List PeerRow
  report : List ReportRow
  reportContact : List ReportContactRow
  nextPeerId : Nat
  nextReportId : Nat
  nextRcId : Nat
deriving DecidableEq, Repr

/-- Does a peer row match the key `(kad_id, ip, udp_port)` of the
`peer_unique` constraint? -/
def rowKeyMatches (r : PeerRow) (k i u : Nat) : Bool :=
  decide (r.kadId = k ∧ r.ip = i ∧ r.udpPort = u)

/-- The `(kad_id, ip, udp_port)` UNIQUE constraint, as a boolean
invariant on the table contents. -/
def peersUniqueB : List PeerRow → Bool
  | [] => true
  | r :: rest =>
    rest.all (fun s => !(rowKeyMatches s r.kadId r.ip r.udpPort)) && peersUniqueB rest

/-- `Store::insert_peer`: `INSERT OR IGNORE INTO peer ...` on the UNIQUE
constraint, then `SELECT id FROM peer WHERE kad_id = .. AND ip = .. AND
udp_port = ..`; returns `(rows_affected, store id)`. -/
def Store.insert_peer (s : Store) (k i u : Nat) : Store × Nat × Nat :=
  match s.peer.find? (fun r => rowKeyMatches r k i u) with
  | some r => (s, 0, r.rid)
  | none =>
    ({ s with
        peer := s.peer ++ [⟨s.nextPeerId, k, i, u, none⟩],
        nextPeerId := s.nextPeerId + 1 },
      1, s.nextPeerId)

/-- `Store::insert_report`: unconditional `INSERT INTO report ...
RETURNING id`. -/
def Store.insert_report (s : Store) (src recv : Nat) : Store × Nat :=
  ({ s with
      report := s.report ++ [⟨s.nextReportId, src, recv⟩],
      nextReportId := s.nextReportId + 1 },
    s.nextReportId)

/-- `Store::insert_report_contact`: upsert the reported peer, then
insert one `report_contact` row; returns the peer upsert's was-new
count. -/
def Store.insert_report_contact (s : Store) (reportId : Nat) (k i u : Nat)
    (tcp ver verif : Option Nat) : Store × Nat :=
  let res := s.insert_peer k i u
  let s1 := res.1
  let ct := res.2.1
  let pid := res.2.2
  ({ s1 with
      reportContact := s1.reportContact ++ [⟨s1.nextRcId, reportId, pid, tcp, ver, verif⟩],
      nextRcId := s1.nextRcId + 1 },
    ct)

/-- `Store::mark_peer_sent`: `UPDATE peer SET last_send_time = $now
WHERE id = $pid`. -/
def Store.mark_peer_sent (s : Store) (pid now : Nat) : Store :=
  { s with
      peer := s.peer.map (fun r =>
        if r.rid = pid then { r with lastSendTime := some now } else r) }

end RemuleCollect


/-! ## Helper lemmas -/

namespace Remule

@[simp]
theorem RRes.ok_bind (v : α) (f : α → RRes ε β) : (RRes.ok v : RRes ε α) >>= f = f v :=
  rfl

@[simp]
theorem RRes.err_bind (e : ε) (f : α → RRes ε β) : (RRes.err e : RRes ε α) >>= f = .err e :=
  rfl

@[simp]
theorem RRes.panic_bind (f : α → RRes ε β) : (RRes.panic : RRes ε α) >>= f = .panic :=
  rfl

@[simp]
theorem RRes.unwrapO_some (v : α) : (RRes.unwrapO (some v) : RRes ε α) = .ok v :=
  rfl

theorem chunks25_length (n : Nat) (raw : List Nat) : (chunks25 n raw).length = n := by
  induction n generalizing raw with
  | zero => rfl
  | succ n ih => simp [chunks25, ih]

theorem chunks25_getD (n i : Nat) (raw : List Nat) (h : i < n) :
    (chunks25 n raw).getD i [] = (raw.drop (25 * i)).take 25 := by
  induction n generalizing raw i with
  | zero => omega
  | succ n ih =>
    cases i with
    | zero => simp [chunks25]
    | succ i =>
      have h' : i < n := by omega
      simp only [chunks25, List.getD_cons_succ]
      rw [ih i (raw.drop 25) h', List.drop_drop]
      congr 2
      omega

theorem chunks25_mem_length (n : Nat) (raw : List Nat) (h : raw.length = 25 * n) :
    ∀ c ∈ chunks25 n raw, c.length = 25 := by
  induction n generalizing raw with
  | zero => intro c hc; simp [chunks25] at hc
  | succ n ih =>
    intro c hc
    simp only [chunks25, List.mem_cons] at hc
    rcases hc with rfl | hc
    · simp [List.length_take]; omega
    · exact ih (raw.drop 25) (by simp [List.length_drop, h]; omega) c hc

theorem brcDrain_ok (n : Nat) (raw : List Nat) (h : raw.length = 25 * n) :
    brcDrain raw = .ok (chunks25 n raw) := by
  induction n generalizing raw with
  | zero =>
    rw [brcDrain]
    simp at h
    simp [h, chunks25]
  | succ n ih =>
    rw [brcDrain]
    have h1 : ¬ raw.length = 0 := by omega
    have h2 : ¬ raw.length < 25 := by omega
    rw [if_neg h1, dif_neg h2, ih (raw.drop 25) (by simp [List.length_drop, h]; omega)]
    rfl

end Remule

/-! ## Claim theorems -/

namespace Remule

/-- C1: the claim says every decoding entry point is total and never
panics; the code panics.  `TagList::from_slice` on the four zero bytes
panics in `count` (a 4-byte slice converted to a `[u8; 2]`),
`Tag::from_slice` panics on a string tag (it slices 6 bytes at the value
offset and converts them to a `[u8; 2]`) and on a `Bool` tag (a `todo!()`
arm), and `KadPacket::operation` panics on a 1-byte `BootstrapResp`
packet (it calls `.unwrap()` on the failed sub-parse). -/
theorem c1_codec_panics :
    TagList.fromSlice [0, 0, 0, 0] = .panic
    ∧ Tag.fromSlice [2, 0, 0, 0, 0] = .panic
    ∧ Tag.fromSlice [5, 0, 0] = .panic
    ∧ KadPacket.operation [0x09] = .panic := by
  refine ⟨by decide, by decide, by decide, by decide⟩

/-- C3: the claim says `Res::from_slice` succeeds on
`target(16) | num_contacts(1) | num_contacts × 25` bytes; the code
rejects every buffer whose length differs from exactly 17, so the
42-byte buffer with one contact is refused with
`ResSizeMismatch { have: 42, need: 17 }`. -/
theorem c3_res_from_slice_rejects_contacts :
    Res.fromSlice (List.replicate 16 0 ++ [1] ++ List.replicate 25 0)
      = .err (.ResSizeMismatch 42 17)
    ∧ (List.replicate 16 0 ++ [1] ++ List.replicate 25 0 : List Nat).length
      = 16 + 1 + 1 * 25 := by
  refine ⟨by decide, by decide⟩

/-- C4: the claim says `TagList::from_slice` reads the count from a
4-byte little-endian field and returns an error (never a panic) on bad
buffers; on `[2, 0, 0, 0]` (count 2, no tag bytes) the code panics in
`TagList::count`, which feeds the 4-byte slice `raw[..4]` to
`try_into::<[u8; 2]>().unwrap()`. -/
theorem c4_taglist_count_panics :
    TagList.count [2, 0, 0, 0] = (.panic : RRes Err Nat)
    ∧ TagList.fromSlice [2, 0, 0, 0] = .panic := by
  refine ⟨by decide, by decide⟩

/-- C5: the claim says `type()` returns `b[0]`; the code returns
`b[1]` (the first byte of `target`).  On the 33-byte buffer starting
`[170, 187, ...]`, `from_slice` succeeds, `type_()` yields 187 — the
byte at index 1 — and not the byte 170 at index 0, while `target` and
`check` read `b[1..17]` and `b[17..33]` as claimed. -/
theorem c5_req_type_reads_byte_one :
    Req.fromSlice (170 :: 187 :: List.replicate 31 0)
      = .ok (170 :: 187 :: List.replicate 31 0)
    ∧ Req.type_ (170 :: 187 :: List.replicate 31 0) = .ok 187
    ∧ (170 :: 187 :: List.replicate 31 0 : List Nat).getD 0 0 = 170
    ∧ Req.type_ (170 :: 187 :: List.replicate 31 0) ≠ .ok 170
    ∧ Req.target (170 :: 187 :: List.replicate 31 0) = .ok 187
    ∧ Req.check (170 :: 187 :: List.replicate 31 0) = .ok 0 := by
  refine ⟨by decide, by decide, by decide, by decide, by decide, by decide⟩

/-- C8: the claim says the millisecond round-trip is the identity on
whole-millisecond times at or after the epoch; the code reconstructs
with `Duration::from_micros`, so the time `epoch + 1 ms` (1000000 ns)
comes back as `epoch + 1 µs` (1000 ns). -/
theorem c8_unix_millis_round_trip_fails :
    RemuleCollect.from_unix_millis (RemuleCollect.as_unix_millis 1000000) = 1000
    ∧ (1000 : Nat) ≠ 1000000 := by
  refine ⟨by decide, by decide⟩

/-- C10: `OperationBuf::BootstrapReq.write_to(w)` appends exactly the
two bytes `[0xE4, 0x01]` (`KademliaHeader` then `BootstrapReq`) to any
writer and returns success. -/
theorem c10_bootstrap_req_write_to (w : List Nat) :
    OperationBuf.writeTo .BootstrapReq w = .ok (w ++ [0xE4, 0x01]) :=
  rfl

/-- C7 counterexample: the claim says `SearchRes::from_slice` returns an
error on a buffer whose declared `result_ct` is not followed by that
many entries; on the 34-byte buffer declaring `result_ct = 1` with no
bytes after the header, `from_slice` succeeds. -/
theorem c7_counterexample_no_validation :
    SearchRes.fromSlice (List.replicate 32 0 ++ [1, 0])
      = .ok (List.replicate 32 0 ++ [1, 0])
    ∧ SearchRes.resultCt (List.replicate 32 0 ++ [1, 0]) = .ok 1
    ∧ ((List.replicate 32 0 ++ [1, 0] : List Nat)).drop 34 = [] := by
  refine ⟨by decide, by decide, by decide⟩

/-- C7 (amended): `SearchRes::from_slice` performs no validation and
succeeds for every buffer; the eager walk of the results region is done
only later, by `results()`. -/
theorem c7_search_res_from_slice_never_fails (raw : List Nat) :
    SearchRes.fromSlice raw = .ok raw :=
  rfl

end Remule

/-- C6: the claim says `parse_bootstrap` returns `count` contacts on a
well-formed `count | count × 25 bytes` input, reading each `kad_id` as a
16-byte little-endian `u128`; the code reads the `u128` from only the
first 8 bytes (`rem[..8].try_into().unwrap()` into a `[u8; 16]`), which
panics on the very first contact. -/
theorem c6_parse_bootstrap_panics :
    RemuleNodes.parse_bootstrap (1 :: 0 :: 0 :: 0 :: List.replicate 25 7) = .panic
    ∧ RemuleNodes.parse_bootstrap [0, 0, 0, 0] = .ok [] := by
  refine ⟨by decide, by decide⟩

namespace Remule

/-- C2: for every successfully constructed `BootstrapResp`, `contacts()`
succeeds exactly when the bytes after the 21-byte header have length
`num_contacts × 25` (otherwise it fails with
`BootstrapRespContactsSizeMismatch`), and draining the returned iterator
yields exactly `num_contacts` items, each a 25-byte contact in wire
order. -/
theorem c2_bootstrap_resp_contacts (raw : List Nat) (n : Nat)
    (hc : BootstrapResp.fromSlice raw = .ok raw)
    (hn : BootstrapResp.numContacts raw = .ok n) :
    (raw.length - 21 = 25 * n →
      BootstrapResp.contacts raw = .ok (raw.drop 21)
      ∧ brcDrain (raw.drop 21) = .ok (chunks25 n (raw.drop 21))
      ∧ (chunks25 n (raw.drop 21)).length = n
      ∧ (∀ c ∈ chunks25 n (raw.drop 21), c.length = 25)
      ∧ (∀ i, i < n →
          (chunks25 n (raw.drop 21)).getD i [] = (raw.drop (21 + 25 * i)).take 25))
    ∧ (raw.length - 21 ≠ 25 * n →
      BootstrapResp.contacts raw
        = .err (.BootstrapRespContactsSizeMismatch (25 * n) (raw.length - 21))) := by
  have hlen : 21 ≤ raw.length := by
    by_contra hlt
    push_neg at hlt
    have : raw.length < 16 + 2 + 1 + 2 := by omega
    simp [BootstrapResp.fromSlice, this] at hc
  have hdrop : (raw.drop 21).length = raw.length - 21 := by
    simp [List.length_drop]
  have hco : BootstrapResp.contacts raw
      = BootstrapRespContacts.fromSlice n (raw.drop 21) := by
    unfold BootstrapResp.contacts
    rw [hn]
    have h21 : sliceFrom raw (16 + 2 + 1 + 2) = some (raw.drop 21) := by
      simp [sliceFrom]
      omega
    simp [h21]
  constructor
  · intro heq
    have hok : BootstrapRespContacts.fromSlice n (raw.drop 21) = .ok (raw.drop 21) := by
      unfold BootstrapRespContacts.fromSlice
      rw [if_neg]
      omega
    refine ⟨hco.trans hok, brcDrain_ok n _ (by omega), chunks25_length n _,
      chunks25_mem_length n _ (by omega), ?_⟩
    intro i hi
    rw [chunks25_getD n i _ hi, List.drop_drop]
  · intro hne
    have herr : BootstrapRespContacts.fromSlice n (raw.drop 21)
        = .err (.BootstrapRespContactsSizeMismatch (25 * n) (raw.length - 21)) := by
      unfold BootstrapRespContacts.fromSlice
      rw [if_pos, hdrop]
      omega
    exact hco.trans herr

/-- C2 witness: a concrete response (19-byte header prefix, count 1, one
25-byte contact) on which `contacts()` succeeds with the contact
block. -/
theorem c2_bootstrap_resp_contacts_witness :
    BootstrapResp.contacts (List.replicate 19 0 ++ [1, 0] ++ List.replicate 25 3)
      = .ok ((List.replicate 19 0 ++ [1, 0] ++ List.replicate 25 3).drop 21) :=
  ((c2_bootstrap_resp_contacts (List.replicate 19 0 ++ [1, 0] ++ List.replicate 25 3) 1
    (by decide) (by decide)).1 (by decide)).1

end Remule

namespace RemuleCollect

open Remule

theorem peersUniqueB_cons (r : PeerRow) (l : List PeerRow) :
    peersUniqueB (r :: l) = true
      ↔ (∀ s ∈ l, rowKeyMatches s r.kadId r.ip r.udpPort = false)
        ∧ peersUniqueB l = true := by
  simp [peersUniqueB, List.all_eq_true]

theorem peersUniqueB_append_new (l : List PeerRow) (x : PeerRow)
    (h : peersUniqueB l = true)
    (hx : ∀ r ∈ l, rowKeyMatches x r.kadId r.ip r.udpPort = false) :
    peersUniqueB (l ++ [x]) = true := by
  induction l with
  | nil => simp [peersUniqueB]
  | cons r l ih =>
    rw [List.cons_append, peersUniqueB_cons]
    rw [peersUniqueB_cons] at h
    refine ⟨?_, ih h.2 (fun t ht => hx t (List.mem_cons_of_mem r ht))⟩
    intro s hs
    rcases List.mem_append.mp hs with hs | hs
    · exact h.1 s hs
    · have hsx : s = x := by simpa using hs
      subst hsx
      exact hx r (List.mem_cons_self r l)

theorem rowKeyMatches_symm_false (a b : PeerRow)
    (h : rowKeyMatches a b.kadId b.ip b.udpPort = false) :
    rowKeyMatches b a.kadId a.ip a.udpPort = false := by
  simp only [rowKeyMatches, decide_eq_false_iff_not] at h ⊢
  intro hk
  exact h ⟨hk.1.symm, hk.2.1.symm, hk.2.2.symm⟩

theorem peersUniqueB_mark (l : List PeerRow) (pid now : Nat)
    (h : peersUniqueB l = true) :
    peersUniqueB (l.map (fun r =>
      if r.rid = pid then { r with lastSendTime := some now } else r)) = true := by
  induction l with
  | nil => rfl
  | cons r l ih =>
    rw [List.map_cons, peersUniqueB_cons]
    rw [peersUniqueB_cons] at h
    refine ⟨?_, ih h.2⟩
    intro s hs
    rcases List.mem_map.mp hs with ⟨t, ht, rfl⟩
    have hbase := h.1 t ht
    by_cases hr : r.rid = pid <;> by_cases htp : t.rid = pid <;>
      simp only [hr, htp, if_pos, if_neg, not_false_iff, rowKeyMatches] at hbase ⊢ <;>
      simpa using hbase

/-- C9: every store operation preserves the `(kad_id, ip, udp_port)`
uniqueness invariant of the `peer` table, and `insert_peer` on an
already-present peer leaves the store unchanged and returns the existing
store id with a was-new count of zero.  (`insert_report` only appends to
the `report` table; `insert_report_contact` upserts through
`insert_peer`; `mark_peer_sent` only rewrites `last_send_time`.) -/
theorem c9_store_uniqueness (s : Store)
    (k i u k0 i0 u0 src recv reportId pid now : Nat)
    (tcp ver verif : Option Nat) (r0 : PeerRow)
    (hInv : peersUniqueB s.peer = true)
    (hFound : s.peer.find? (fun r => rowKeyMatches r k0 i0 u0) = some r0) :
    peersUniqueB (s.insert_peer k i u).1.peer = true
    ∧ peersUniqueB (s.insert_report src recv).1.peer = true
    ∧ peersUniqueB (s.insert_report_contact reportId k i u tcp ver verif).1.peer = true
    ∧ peersUniqueB (s.mark_peer_sent pid now).peer = true
    ∧ s.insert_peer k0 i0 u0 = (s, 0, r0.rid) := by
  have hip : peersUniqueB (s.insert_peer k i u).1.peer = true := by
    unfold Store.insert_peer
    cases hf : s.peer.find? (fun r => rowKeyMatches r k i u) with
    | some r => simpa using hInv
    | none =>
      simp only []
      apply peersUniqueB_append_new _ _ hInv
      intro r hr
      have hnot := List.find?_eq_none.mp hf r hr
      apply rowKeyMatches_symm_false
      simp only [Bool.not_eq_true] at hnot
      simpa [rowKeyMatches] using hnot
  refine ⟨hip, hInv, ?_, peersUniqueB_mark s.peer pid now hInv, ?_⟩
  · show peersUniqueB (s.insert_peer k i u).1.peer = true
    exact hip
  · unfold Store.insert_peer
    rw [hFound]

/-- C9 witness: on a one-row store, preservation of the uniqueness
invariant under each operation and the no-op behavior of `insert_peer`
on the already-present key `(1, 2, 3)`. -/
theorem c9_store_uniqueness_witness :
    peersUniqueB ((Store.mk [⟨0, 1, 2, 3, none⟩] [] [] 1 0 0).insert_peer 5 6 7).1.peer = true
    ∧ peersUniqueB ((Store.mk [⟨0, 1, 2, 3, none⟩] [] [] 1 0 0).insert_report 0 0).1.peer = true
    ∧ peersUniqueB ((Store.mk [⟨0, 1, 2, 3, none⟩] [] [] 1 0 0).insert_report_contact
        0 5 6 7 none none none).1.peer = true
    ∧ peersUniqueB ((Store.mk [⟨0, 1, 2, 3, none⟩] [] [] 1 0 0).mark_peer_sent 0 99).peer = true
    ∧ (Store.mk [⟨0, 1, 2, 3, none⟩] [] [] 1 0 0).insert_peer 1 2 3
      = (Store.mk [⟨0, 1, 2, 3, none⟩] [] [] 1 0 0, 0, 0) :=
  c9_store_uniqueness (Store.mk [⟨0, 1, 2, 3, none⟩] [] [] 1 0 0)
    5 6 7 1 2 3 0 0 0 0 99 none none none ⟨0, 1, 2, 3, none⟩
    (by decide) (by decide)

end RemuleCollect
